import Mathlib

/-!
Verification of the quiz-generation backend: a shallow embedding of the
AI-response parsing pipeline (`services.py`), the response-shaping helpers
and duplicate predicate (`routes.py` / `utils.py`), and the generation
orchestrator route (`routes.py`), together with theorems settling the
frozen claims about them.

Strings are Python `str` values modelled as Lean `String`; all string
manipulation is implemented here with structural recursion over `List Char`
so that every definition evaluates inside the kernel.  Python `int` is
modelled as `Int`.  The SQLAlchemy store is modelled as an in-memory list of
stored rows threaded through the orchestrator; `db.flush`/`db.commit` make a
saved row visible to the duplicate check for subsequent records of the same
batch, which the list-append model reproduces.
-/

/-! ## Python string primitives -/

/-- `listIsPrefixOf p l` decides whether `p` is a prefix of `l`
(Python `str.startswith` on the character lists). -/
def listIsPrefixOf : List Char → List Char → Bool
  | [], _ => true
  | _ :: _, [] => false
  | p :: ps, c :: cs => p == c && listIsPrefixOf ps cs

/-- Python `str.startswith`. -/
def strStartsWith (s pre : String) : Bool := listIsPrefixOf pre.data s.data

/-- ASCII uppercasing of one character, as Python `str.upper` acts on the
ASCII range (the repository's field labels and test blocks are ASCII). -/
def charUpper (c : Char) : Char :=
  if h : 97 ≤ c.toNat ∧ c.toNat ≤ 122 then
    Char.ofNatAux (c.toNat - 32) (Or.inl (by omega))
  else c

/-- ASCII lowercasing of one character, as Python `str.lower` / SQL `lower`
act on the ASCII range. -/
def charLower (c : Char) : Char :=
  if h : 65 ≤ c.toNat ∧ c.toNat ≤ 90 then
    Char.ofNatAux (c.toNat + 32) (Or.inl (by omega))
  else c

/-- Python `str.upper`. -/
def toUpperStr (s : String) : String := ⟨s.data.map charUpper⟩

/-- Python `str.lower` (also SQL `func.lower`). -/
def toLowerStr (s : String) : String := ⟨s.data.map charLower⟩

/-- The whitespace characters stripped by Python `str.strip` on ASCII input. -/
def isPySpace (c : Char) : Bool :=
  c == ' ' || c == '\t' || c == '\n' || c == '\r' || c == '\x0b' || c == '\x0c'

/-- Python `str.strip()` with no argument. -/
def pyStrip (s : String) : String :=
  ⟨((s.data.dropWhile isPySpace).reverse.dropWhile isPySpace).reverse⟩

/-- `breakFirst sep l` finds the first occurrence of the separator `sep` in
`l`, returning the characters before it and the characters after it — the
helper behind Python `str.split(sep, 1)` and the `in` containment test. -/
def breakFirst (sep : List Char) : List Char → Option (List Char × List Char)
  | [] => none
  | c :: rest =>
      if listIsPrefixOf sep (c :: rest) then
        some ([], (c :: rest).drop sep.length)
      else
        match breakFirst sep rest with
        | some (a, b) => some (c :: a, b)
        | none => none

/-- Fuel-driven worker for Python `str.split(sep)` (every occurrence,
non-overlapping, left to right; `sep` non-empty at all call sites). -/
def pySplitAux (sep : List Char) : Nat → List Char → List (List Char)
  | 0, l => [l]
  | fuel + 1, l =>
      match breakFirst sep l with
      | none => [l]
      | some (a, b) => a :: pySplitAux sep fuel b

/-- Python `str.split(sep)` for a non-empty separator. -/
def pySplit (sep s : String) : List String :=
  (pySplitAux sep.data s.data.length s.data).map (fun l => ⟨l⟩)

/-- Python `str.split(sep, 1)` restricted to what the source uses: the text
after the first occurrence of `sep`, or `none` when `sep` does not occur. -/
def pySplitOnceAfter (sep s : String) : Option String :=
  match breakFirst sep.data s.data with
  | none => none
  | some (_, after) => some ⟨after⟩

/-- Python `str.replace("_", " ")` (single-character pattern). -/
def replaceUnderscores (s : String) : String :=
  ⟨s.data.map (fun c => if c == '_' then ' ' else c)⟩

/-- Worker for Python `str.title`: a letter is uppercased when the previous
character was not a letter, lowercased otherwise. -/
def pyTitleAux : Bool → List Char → List Char
  | _, [] => []
  | prev, c :: cs =>
      if c.isAlpha then
        (if prev then charLower c else charUpper c) :: pyTitleAux true cs
      else c :: pyTitleAux false cs

/-- Python `str.title()` on ASCII input. -/
def pyTitle (s : String) : String := ⟨pyTitleAux false s.data⟩

/-- Digits of a decimal literal; `none` when empty or non-digit
(worker for Python `int(...)`). -/
def parseDigits : List Char → Option Nat
  | [] => none
  | l => parseDigitsAux 0 l
where
  parseDigitsAux : Nat → List Char → Option Nat
    | acc, [] => some acc
    | acc, c :: cs =>
        if c.isDigit then parseDigitsAux (acc * 10 + (c.toNat - 48)) cs
        else none

/-- Python `int(str)` on an optionally signed decimal literal with optional
surrounding whitespace; `none` models the `ValueError` raise.  (Python's
underscore digit grouping is not modelled; no block in scope uses it.) -/
def pyInt (s : String) : Option Int :=
  let t := (pyStrip s).data
  match t with
  | '-' :: ds => (parseDigits ds).map (fun n => -(n : Int))
  | '+' :: ds => (parseDigits ds).map (fun n => (n : Int))
  | ds => (parseDigits ds).map (fun n => (n : Int))

/-- Python `",".join(l)` and friends. -/
def pyJoin (sep : String) : List String → String
  | [] => ""
  | x :: xs => xs.foldl (fun acc y => acc ++ sep ++ y) x

/-! ## Enums and request schema (`schemas.py`) -/

inductive Subject
  | physics | geography | history | mathematics
  | chemistry | biology | literature | computer_science
  deriving DecidableEq, Repr

def Subject.value : Subject → String
  | .physics => "physics"
  | .geography => "geography"
  | .history => "history"
  | .mathematics => "mathematics"
  | .chemistry => "chemistry"
  | .biology => "biology"
  | .literature => "literature"
  | .computer_science => "computer_science"

inductive DifficultyLevel
  | easy | medium | hard
  deriving DecidableEq, Repr

def DifficultyLevel.value : DifficultyLevel → String
  | .easy => "easy"
  | .medium => "medium"
  | .hard => "hard"

inductive QuestionType
  | multiple_choice | true_false | fill_in_the_blanks | match_the_following
  deriving DecidableEq, Repr

def QuestionType.value : QuestionType → String
  | .multiple_choice => "multiple_choice"
  | .true_false => "true_false"
  | .fill_in_the_blanks => "fill_in_the_blanks"
  | .match_the_following => "match_the_following"

inductive State
  | fun_state | serious | educational | competitive
  deriving DecidableEq, Repr

def State.value : State → String
  | .fun_state => "fun"
  | .serious => "serious"
  | .educational => "educational"
  | .competitive => "competitive"

structure QuestionRequest where
  subject : Subject
  difficulty : DifficultyLevel
  question_type : QuestionType
  num_questions : Nat
  topic : Option String
  sub_topic : Option String
  state : State
  deriving DecidableEq, Repr

/-! ## Response schemas (`schemas.py`) -/

structure MultipleChoiceData where
  option_a : String
  option_b : String
  option_c : String
  option_d : String
  correct_option : String
  deriving DecidableEq, Repr

structure TrueFalseData where
  correct_answer : String
  deriving DecidableEq, Repr

structure FillInBlanksData where
  answers : List String
  deriving DecidableEq, Repr

structure MatchFollowingData where
  pairs : List (String × String)
  deriving DecidableEq, Repr

structure QuestionResponse where
  id : Nat
  subject : String
  difficulty : String
  question_type : String
  topic : String
  sub_topic : Option String
  question_text : String
  explanation : Option String
  elo_rating : Int
  elo_min : Int
  elo_max : Int
  state : String
  multiple_choice_data : Option MultipleChoiceData
  true_false_data : Option TrueFalseData
  fill_in_blanks_data : Option FillInBlanksData
  match_following_data : Option MatchFollowingData
  deriving DecidableEq, Repr

/-! ## Parser state and output record (`services.py`) -/

/-- The local variables of `AIService._parse_single_question` during the
line scan.  A Python dict is an insertion-ordered association list whose
keys are distinct; assignment to an existing key overwrites in place. -/
structure ParseFields where
  topic : String
  sub_topic : Option String
  question_text : String
  options : List String
  correct_answer : String
  explanation : String
  blanks : List String
  match_pairs : List (String × String)
  elo_rating : Int
  deriving DecidableEq, Repr

def initFields : ParseFields :=
  { topic := "", sub_topic := none, question_text := "", options := [],
    correct_answer := "", explanation := "", blanks := [], match_pairs := [],
    elo_rating := 1200 }

/-- The dict returned by `_parse_single_question` for a validated block. -/
structure QuestionDict where
  topic : String
  sub_topic : Option String
  question_text : String
  options : Option (List String)
  correct_answer : String
  explanation : Option String
  blanks : Option (List String)
  match_pairs : Option (List (String × String))
  elo_rating : Int
  elo_range : Int × Int
  state : State
  deriving DecidableEq, Repr

/-! ## Completion parser (`services.py`, `AIService`) -/

/-- `get_value` from `_parse_single_question`:
`parts = text.split(":", 1); return parts[1].strip() if len(parts) > 1 else ""`. -/
def get_value (text : String) : String :=
  match pySplitOnceAfter ":" text with
  | none => ""
  | some after => pyStrip after

/-- Python dict assignment `m[k] = v`. -/
def dictInsert (m : List (String × String)) (k v : String) : List (String × String) :=
  if m.any (fun p => p.1 == k) then
    m.map (fun p => if p.1 == k then (k, v) else p)
  else m ++ [(k, v)]

/-- One `PAIRS:` item: `if "=" in pair: key, value = pair.split("=", 1);
match_pairs[key.strip()] = value.strip()`; items without `=` are skipped. -/
def insertPair (m : List (String × String)) (pair : String) : List (String × String) :=
  match breakFirst "=".data pair.data with
  | none => m
  | some (k, v) => dictInsert m (pyStrip ⟨k⟩) (pyStrip ⟨v⟩)

/-- The body of the `for line in lines` loop of `_parse_single_question`,
transcribed branch for branch (including the alternate-spelling checks the
source writes against the uppercased line). -/
def scanLine (question_type : QuestionType) (st : ParseFields) (line : String) : ParseFields :=
  let line_upper := toUpperStr line
  if strStartsWith line_upper "TOPIC:" || strStartsWith line_upper "Topic:" then
    { st with topic := get_value line }
  else if strStartsWith line_upper "SUBTOPIC:" || strStartsWith line_upper "Sub-topic:" ||
      strStartsWith line_upper "SUBTOPIC:" then
    { st with sub_topic := some (get_value line) }
  else if strStartsWith line_upper "QUESTION:" || strStartsWith line_upper "Question:" then
    { st with question_text := get_value line }
  else if strStartsWith line_upper "EXPLANATION:" || strStartsWith line_upper "Explanation:" then
    { st with explanation := get_value line }
  else if strStartsWith line_upper "RATING:" || strStartsWith line_upper "ELO Rating:" then
    { st with elo_rating := (pyInt (get_value line)).getD 1200 }
  else if question_type = QuestionType.multiple_choice then
    if strStartsWith line "A)" || strStartsWith line "B)" ||
        strStartsWith line "C)" || strStartsWith line "D)" then
      { st with options := st.options ++ [line] }
    else if strStartsWith line_upper "ANSWER:" || strStartsWith line_upper "Correct Answer:" then
      { st with correct_answer := get_value line }
    else st
  else if question_type = QuestionType.true_false then
    if strStartsWith line_upper "ANSWER:" || strStartsWith line_upper "Answer:" then
      { st with correct_answer := get_value line }
    else st
  else if question_type = QuestionType.fill_in_the_blanks then
    if strStartsWith line_upper "BLANKS:" || strStartsWith line_upper "Blanks:" then
      let blanks_text := get_value line
      { st with blanks := (pySplit "," blanks_text).map pyStrip,
                correct_answer := blanks_text }
    else st
  else if question_type = QuestionType.match_the_following then
    if strStartsWith line_upper "PAIRS:" || strStartsWith line_upper "Match Pairs:" then
      let pairs_text := get_value line
      let pairs := (pySplit "," pairs_text).map pyStrip
      { st with match_pairs := pairs.foldl insertPair st.match_pairs,
                correct_answer := pairs_text }
    else st
  else st

/-- `lines = [line.strip() for line in block.split('\n') if line.strip()]`. -/
def blockLines (block : String) : List String :=
  ((pySplit "\n" block).map pyStrip).filter (fun l => l ≠ "")

/-- The field values accumulated by the line scan over one block. -/
def scanFields (block : String) (question_type : QuestionType) : ParseFields :=
  (blockLines block).foldl (scanLine question_type) initFields

/-- `AIService._parse_single_question`: scan, post-scan validation (reject
by returning `none`), defaulting, rating clamp, record construction. -/
def parse_single_question (block : String) (question_type : QuestionType)
    (request : QuestionRequest) : Option QuestionDict :=
  let st := scanFields block question_type
  if st.question_text = "" then none
  else if st.correct_answer = "" then none
  else if question_type = QuestionType.multiple_choice ∧ st.options.length < 4 then none
  else if question_type = QuestionType.fill_in_the_blanks ∧ st.blanks = [] then none
  else if question_type = QuestionType.match_the_following ∧ st.match_pairs.length < 3 then none
  else
    let topic := if st.topic = "" then pyTitle (replaceUnderscores request.subject.value)
                 else st.topic
    let sub_topic :=
      if (st.sub_topic = none ∨ st.sub_topic = some "") ∧
          (request.sub_topic ≠ none ∧ request.sub_topic ≠ some "") then
        request.sub_topic
      else st.sub_topic
    let elo_rating := max 800 (min 2400 st.elo_rating)
    some { topic := topic, sub_topic := sub_topic, question_text := st.question_text,
           options := if st.options = [] then none else some st.options,
           correct_answer := st.correct_answer,
           explanation := if st.explanation = "" then none else some st.explanation,
           blanks := if st.blanks = [] then none else some st.blanks,
           match_pairs := if st.match_pairs = [] then none else some st.match_pairs,
           elo_rating := elo_rating,
           elo_range := (elo_rating - 200, elo_rating + 200),
           state := request.state }

/-- `AIService._parse_ai_response`: split on `---`, strip each block, skip
blocks that are empty or shorter than 30 characters, collect the records of
the blocks `_parse_single_question` accepts, in order. -/
def parse_ai_response (ai_response : String) (request : QuestionRequest) : List QuestionDict :=
  (pySplit "---" ai_response).foldl
    (fun acc rawBlock =>
      let block := pyStrip rawBlock
      if block = "" ∨ block.length < 30 then acc
      else
        match parse_single_question block request.question_type request with
        | some q => acc ++ [q]
        | none => acc)
    []

/-! ## Generation service (`services.py`, `AIService.generate_questions_with_ai`)

The external LLM round trip is a parameter: `configured` is whether the
module-level client exists (an API key was present), `llm_response` is the
text `_call_openrouter` produced (`none` models its caught-exception path).
The spec's error taxonomy names the raised exceptions. -/

inductive GenError
  | generationUnavailable
  | noParsableQuestions
  | emptyResult
  deriving DecidableEq, Repr

def generate_questions_with_ai (configured : Bool) (llm_response : Option String)
    (request : QuestionRequest) : Except GenError (List QuestionDict) :=
  if configured = false then Except.error GenError.generationUnavailable
  else
    match llm_response with
    | none => Except.error GenError.generationUnavailable
    | some text =>
        if text = "" then Except.error GenError.generationUnavailable
        else
          let questions := parse_ai_response text request
          if questions = [] then Except.error GenError.noParsableQuestions
          else Except.ok questions

/-! ## Duplicate predicate and response shaping (`routes.py` / `utils.py`) -/

/-- A persisted `Question` row, restricted to the columns the duplicate
predicate reads plus its surrogate id. -/
structure StoredQuestion where
  id : Nat
  question_text : String
  subject : String
  question_type : String
  deriving DecidableEq, Repr

/-- `check_duplicate_question`: lowercases the stored column, lowercases and
strips the candidate, and matches subject and question type exactly. -/
def check_duplicate_question (db : List StoredQuestion) (question_text subject question_type : String) : Bool :=
  db.any (fun row =>
    toLowerStr row.question_text == pyStrip (toLowerStr question_text) &&
    row.subject == subject && row.question_type == question_type)

/-- `s[3:]`. -/
def strDropThree (s : String) : String := ⟨s.data.drop 3⟩

/-- Python truthiness of `question_data.get(key)` for a list-valued key:
present and non-empty. -/
def optListTruthy {α : Type} (o : Option (List α)) : Bool :=
  match o with
  | none => false
  | some l => !l.isEmpty

/-- `create_question_response_from_dict`.  `none` models the `IndexError`
the Python raises when the multiple-choice branch indexes fewer than four
options (caught by the per-record handler in the route). -/
def create_question_response_from_dict (question_data : QuestionDict)
    (request : QuestionRequest) (question_id : Nat) : Option QuestionResponse :=
  let response : QuestionResponse :=
    { id := question_id,
      subject := request.subject.value,
      difficulty := request.difficulty.value,
      question_type := request.question_type.value,
      topic := question_data.topic,
      sub_topic := question_data.sub_topic,
      question_text := question_data.question_text,
      explanation := question_data.explanation,
      elo_rating := question_data.elo_rating,
      elo_min := question_data.elo_range.1,
      elo_max := question_data.elo_range.2,
      state := question_data.state.value,
      multiple_choice_data := none, true_false_data := none,
      fill_in_blanks_data := none, match_following_data := none }
  if request.question_type = QuestionType.multiple_choice ∧
      optListTruthy question_data.options = true then
    match question_data.options with
    | some opts =>
        if opts.length < 4 then none
        else
          let mc : MultipleChoiceData :=
            { option_a := strDropThree (opts.getD 0 ""),
              option_b := strDropThree (opts.getD 1 ""),
              option_c := strDropThree (opts.getD 2 ""),
              option_d := strDropThree (opts.getD 3 ""),
              correct_option := question_data.correct_answer }
          some { response with multiple_choice_data := some mc }
    | none => none
  else if request.question_type = QuestionType.true_false then
    let tf : TrueFalseData := { correct_answer := question_data.correct_answer }
    some { response with true_false_data := some tf }
  else if request.question_type = QuestionType.fill_in_the_blanks ∧
      optListTruthy question_data.blanks = true then
    let fib : FillInBlanksData := { answers := question_data.blanks.getD [] }
    some { response with fill_in_blanks_data := some fib }
  else if request.question_type = QuestionType.match_the_following ∧
      optListTruthy question_data.match_pairs = true then
    let mf : MatchFollowingData := { pairs := question_data.match_pairs.getD [] }
    some { response with match_following_data := some mf }
  else some response

/-- The per-question dict of the route's JSON response. -/
structure FrontendQuestion where
  id : Nat
  topic : String
  sub_topic : Option String
  question : String
  explanation : Option String
  elo_rating : Int
  elo_range : List Int
  state : String
  options : Option (List String)
  correct_answer : String
  blanks : Option (List String)
  match_pairs : Option (List (String × String))
  deriving DecidableEq, Repr

/-- `convert_to_frontend_format`. -/
def convert_to_frontend_format (r : QuestionResponse) : FrontendQuestion :=
  let result : FrontendQuestion :=
    { id := r.id, topic := r.topic, sub_topic := r.sub_topic,
      question := r.question_text, explanation := r.explanation,
      elo_rating := r.elo_rating, elo_range := [r.elo_min, r.elo_max],
      state := r.state, options := none, correct_answer := "",
      blanks := none, match_pairs := none }
  match r.multiple_choice_data with
  | some mc =>
      { result with
        options := some ["A) " ++ mc.option_a, "B) " ++ mc.option_b,
                         "C) " ++ mc.option_c, "D) " ++ mc.option_d],
        correct_answer := mc.correct_option }
  | none =>
    match r.true_false_data with
    | some tf => { result with correct_answer := tf.correct_answer }
    | none =>
      match r.fill_in_blanks_data with
      | some fib =>
          { result with blanks := some fib.answers,
                        correct_answer := pyJoin "," fib.answers }
      | none =>
        match r.match_following_data with
        | some m =>
            { result with match_pairs := some m.pairs,
                          correct_answer := pyJoin "," (m.pairs.map (fun p => p.1 ++ "=" ++ p.2)) }
        | none => result

/-! ## Generation orchestrator (`routes.py`, `generate_questions`) -/

structure Stats where
  total_returned : Nat
  from_database : Nat
  newly_generated : Nat
  duplicates_skipped : Nat
  deriving DecidableEq, Repr

structure GenResponse where
  subject : String
  difficulty : String
  question_type : String
  questions : List FrontendQuestion
  source : String
  stats : Stats
  deriving DecidableEq, Repr

/-- The loop state of `generate_questions`: the store plus the
`saved_questions`, `frontend_questions` and `duplicates_found` accumulators
(`saved_questions` is tracked by its length, which is all the response
reads from it). -/
structure GenState where
  db : List StoredQuestion
  saved_count : Nat
  frontend : List FrontendQuestion
  dups : Nat
  deriving DecidableEq, Repr

/-- The row `QuestionService.save_question_to_db` inserts, restricted to the
columns the duplicate predicate reads; the surrogate id is the next row id. -/
def storedOf (q : QuestionDict) (request : QuestionRequest) (rowId : Nat) : StoredQuestion :=
  { id := rowId, question_text := q.question_text,
    subject := request.subject.value, question_type := request.question_type.value }

/-- One iteration of the `for i, question_data in enumerate(question_dicts)`
loop.  A duplicate is counted and not saved but still converted for the
output; a non-duplicate is saved (and the save committed, so later
iterations see it) before conversion.  `create_question_response_from_dict`
returning `none` is the caught per-record exception: the iteration's
`continue` keeps every mutation already performed. -/
def processRecord (request : QuestionRequest) (st : GenState) (iq : Nat × QuestionDict) : GenState :=
  let i := iq.1
  let question_data := iq.2
  let is_duplicate := check_duplicate_question st.db question_data.question_text
      request.subject.value request.question_type.value
  if is_duplicate then
    match create_question_response_from_dict question_data request (i + 1) with
    | some r => { st with dups := st.dups + 1,
                          frontend := st.frontend ++ [convert_to_frontend_format r] }
    | none => { st with dups := st.dups + 1 }
  else
    let db2 := st.db ++ [storedOf question_data request (st.db.length + 1)]
    match create_question_response_from_dict question_data request (i + 1) with
    | some r => { st with db := db2, saved_count := st.saved_count + 1,
                          frontend := st.frontend ++ [convert_to_frontend_format r] }
    | none => { st with db := db2, saved_count := st.saved_count + 1 }

/-- The whole per-record loop, from loop index `i`. -/
def processList (request : QuestionRequest) (st : GenState) (i : Nat) :
    List QuestionDict → GenState
  | [] => st
  | q :: rest => processList request (processRecord request st (i, q)) (i + 1) rest

def processAll (request : QuestionRequest) (db : List StoredQuestion)
    (question_dicts : List QuestionDict) : GenState :=
  processList request { db := db, saved_count := 0, frontend := [], dups := 0 } 0 question_dicts

/-- The route body after `generate_questions_with_ai` has returned records:
the per-record loop, truncation to `num_questions`, the empty-result guard
and response assembly.  The second component is the store after the request. -/
def generate_core (db : List StoredQuestion) (request : QuestionRequest)
    (question_dicts : List QuestionDict) : Except GenError GenResponse × List StoredQuestion :=
  if question_dicts = [] then (Except.error GenError.noParsableQuestions, db)
  else
    let res := processAll request db question_dicts
    let final_questions := res.frontend.take request.num_questions
    if final_questions = [] then (Except.error GenError.emptyResult, res.db)
    else
      (Except.ok
        { subject := request.subject.value,
          difficulty := request.difficulty.value,
          question_type := request.question_type.value,
          questions := final_questions,
          source := "ai_generated",
          stats := { total_returned := final_questions.length, from_database := 0,
                     newly_generated := res.saved_count,
                     duplicates_skipped := res.dups } }, res.db)

/-- The `/questions/generate` handler: generation service then per-record
processing.  A service error leaves the store untouched. -/
def generate_questions_route (db : List StoredQuestion) (request : QuestionRequest)
    (configured : Bool) (llm_response : Option String) :
    Except GenError GenResponse × List StoredQuestion :=
  match generate_questions_with_ai configured llm_response request with
  | Except.error e => (Except.error e, db)
  | Except.ok question_dicts => generate_core db request question_dicts

/-! ## Concrete fixtures used by witnesses and counterexamples -/

def reqTF : QuestionRequest :=
  { subject := Subject.physics, difficulty := DifficultyLevel.easy,
    question_type := QuestionType.true_false, num_questions := 1,
    topic := none, sub_topic := none, state := State.fun_state }

def reqMatch : QuestionRequest :=
  { subject := Subject.chemistry, difficulty := DifficultyLevel.medium,
    question_type := QuestionType.match_the_following, num_questions := 5,
    topic := none, sub_topic := none, state := State.serious }

def reqCS : QuestionRequest :=
  { subject := Subject.computer_science, difficulty := DifficultyLevel.medium,
    question_type := QuestionType.true_false, num_questions := 5,
    topic := none, sub_topic := some "Algorithms", state := State.educational }

def qWitC2 : QuestionDict :=
  { topic := "Physics", sub_topic := none,
    question_text := "Is gravity attractive at all?",
    options := none, correct_answer := "True", explanation := none,
    blanks := none, match_pairs := none,
    elo_rating := 2400, elo_range := (2200, 2600), state := State.fun_state }

def reqMC : QuestionRequest :=
  { subject := Subject.physics, difficulty := DifficultyLevel.medium,
    question_type := QuestionType.multiple_choice, num_questions := 5,
    topic := none, sub_topic := none, state := State.fun_state }

def qWitC3 : QuestionDict :=
  { topic := "Electric Current", sub_topic := some "SI Units",
    question_text := "What is the fundamental unit of electric current?",
    options := some ["A) Volt", "B) Watt", "C) Ampere", "D) Ohm"],
    correct_answer := "C",
    explanation := some "The ampere is the SI base unit for electric current.",
    blanks := none, match_pairs := none,
    elo_rating := 1100, elo_range := (900, 1300), state := State.fun_state }

def dummyQuestionDict : QuestionDict :=
  { topic := "", sub_topic := none, question_text := "", options := none,
    correct_answer := "", explanation := none, blanks := none, match_pairs := none,
    elo_rating := 0, elo_range := (0, 0), state := State.fun_state }

def dummyFrontend : FrontendQuestion :=
  { id := 0, topic := "", sub_topic := none, question := "", explanation := none,
    elo_rating := 0, elo_range := [], state := "", options := none,
    correct_answer := "", blanks := none, match_pairs := none }

def dbWit : List StoredQuestion :=
  [{ id := 1, question_text := "Is water wet?", subject := "physics",
     question_type := "true_false" }]

def qd1 : QuestionDict :=
  { topic := "Water", sub_topic := none, question_text := "Is water wet?",
    options := none, correct_answer := "True", explanation := none,
    blanks := none, match_pairs := none, elo_rating := 1200,
    elo_range := (1000, 1400), state := State.fun_state }

def qd2 : QuestionDict :=
  { qd1 with topic := "Fire", question_text := "Is fire hot?" }

def mkTF (t : String) : QuestionDict := { qd1 with question_text := t }

def req7 : QuestionRequest := { reqTF with num_questions := 5 }

def qs7 : List QuestionDict :=
  [mkTF "Is one odd?", mkTF "Is two even?", mkTF "Is three odd?",
   mkTF "Is four even?", mkTF "Is five odd?", mkTF "Is six even?",
   mkTF "Is seven odd?"]

def qWitC9 : QuestionDict :=
  { topic := "Computer Science", sub_topic := some "Algorithms",
    question_text := "Does quicksort run fast on average?",
    options := none, correct_answer := "True", explanation := none,
    blanks := none, match_pairs := none, elo_rating := 1200,
    elo_range := (1000, 1400), state := State.educational }


/-! ## Prefix-matching infrastructure -/

lemma listIsPrefixOf_cons {p : Char} {ps l : List Char} :
    listIsPrefixOf (p :: ps) l = true ↔ ∃ t, l = p :: t ∧ listIsPrefixOf ps t = true := by
  cases l with
  | nil => simp [listIsPrefixOf]
  | cons c cs =>
      simp only [listIsPrefixOf, Bool.and_eq_true, beq_iff_eq]
      constructor
      · rintro ⟨rfl, h⟩
        exact ⟨cs, rfl, h⟩
      · rintro ⟨t, heq, ht⟩
        cases heq
        exact ⟨rfl, ht⟩

lemma lisp_agree (a b l : List Char) (ha : listIsPrefixOf a l = true)
    (hb : listIsPrefixOf b l = true) :
    listIsPrefixOf a b = true ∨ listIsPrefixOf b a = true := by
  induction l generalizing a b with
  | nil =>
      cases a with
      | nil => exact Or.inl rfl
      | cons x xs => simp [listIsPrefixOf] at ha
  | cons c cs ih =>
      cases a with
      | nil => exact Or.inl rfl
      | cons x xs =>
          cases b with
          | nil => exact Or.inr rfl
          | cons y ys =>
              simp only [listIsPrefixOf, Bool.and_eq_true, beq_iff_eq] at ha hb
              rcases ha with ⟨rfl, ha2⟩
              rcases hb with ⟨rfl, hb2⟩
              rcases ih xs ys ha2 hb2 with h | h
              · exact Or.inl (by simp [listIsPrefixOf, h])
              · exact Or.inr (by simp [listIsPrefixOf, h])

lemma lisp_map (f : Char → Char) (a l : List Char) (h : listIsPrefixOf a l = true) :
    listIsPrefixOf (a.map f) (l.map f) = true := by
  induction a generalizing l with
  | nil => simp [listIsPrefixOf]
  | cons p ps ih =>
      cases l with
      | nil => simp [listIsPrefixOf] at h
      | cons c cs =>
          simp only [listIsPrefixOf, Bool.and_eq_true, beq_iff_eq] at h
          rcases h with ⟨rfl, h2⟩
          simp only [List.map, listIsPrefixOf, Bool.and_eq_true, beq_iff_eq]
          exact ⟨trivial, ih cs h2⟩

lemma lisp_all_image (f : Char → Char) (a l : List Char)
    (h : listIsPrefixOf a (l.map f) = true) : ∀ d ∈ a, ∃ c, f c = d := by
  induction a generalizing l with
  | nil => simp
  | cons p ps ih =>
      intro d hd
      cases l with
      | nil => simp [listIsPrefixOf] at h
      | cons c cs =>
          simp only [List.map, listIsPrefixOf, Bool.and_eq_true, beq_iff_eq] at h
          rcases h with ⟨hp, h2⟩
          rcases List.mem_cons.mp hd with rfl | hd2
          · exact ⟨c, hp.symm⟩
          · exact ih cs h2 d hd2

lemma charUpper_ne_lower (c d : Char) (h1 : 97 ≤ d.toNat) (h2 : d.toNat ≤ 122) :
    charUpper c ≠ d := by
  intro heq
  unfold charUpper at heq
  by_cases hc : 97 ≤ c.toNat ∧ c.toNat ≤ 122
  · rw [dif_pos hc] at heq
    have hnat : d.toNat = c.toNat - 32 := by rw [← heq]; rfl
    omega
  · rw [dif_neg hc] at heq
    subst heq
    exact hc ⟨h1, h2⟩

/-- A field-label pattern containing a lowercase letter can never match the
uppercased line: the alternate-spelling checks of `_parse_single_question`
are dead branches. -/
lemma dead_pattern (pat line : String)
    (hd : ∃ d, d ∈ pat.data ∧ 97 ≤ d.toNat ∧ d.toNat ≤ 122) :
    strStartsWith (toUpperStr line) pat = false := by
  rcases hd with ⟨d, hdm, h1, h2⟩
  by_contra hcon
  have htrue : strStartsWith (toUpperStr line) pat = true := by
    revert hcon
    cases strStartsWith (toUpperStr line) pat <;> simp
  have himg : listIsPrefixOf pat.data (line.data.map charUpper) = true := htrue
  obtain ⟨c, hc⟩ := lisp_all_image charUpper pat.data line.data himg d hdm
  exact charUpper_ne_lower c d h1 h2 hc

/-- Two patterns neither of which is a prefix of the other cannot both match
the head of the same string. -/
lemma strStartsWith_excl (s a b : String)
    (hab : listIsPrefixOf a.data b.data = false)
    (hba : listIsPrefixOf b.data a.data = false)
    (ha : strStartsWith s a = true) : strStartsWith s b = false := by
  by_contra hcon
  have hb : strStartsWith s b = true := by
    revert hcon
    cases strStartsWith s b <;> simp
  rcases lisp_agree a.data b.data s.data ha hb with h | h
  · rw [hab] at h
    exact Bool.false_ne_true h
  · rw [hba] at h
    exact Bool.false_ne_true h

lemma startsWith_toUpper (l p : String) (h : strStartsWith l p = true) :
    strStartsWith (toUpperStr l) (toUpperStr p) = true :=
  lisp_map charUpper p.data l.data h

/-! ## Cleaned characterization of the line scan

`scanLine` with the dead alternate-spelling checks eliminated: each of
`Topic:`, `Sub-topic:`, `Question:`, `Explanation:`, `ELO Rating:`,
`Correct Answer:`, `Answer:`, `Blanks:` and `Match Pairs:` contains a
lowercase letter, so it can never be a prefix of the uppercased line. -/

lemma scanLine_clean (qt : QuestionType) (st : ParseFields) (line : String) :
    scanLine qt st line =
      (if strStartsWith (toUpperStr line) "TOPIC:" then
        { st with topic := get_value line }
      else if strStartsWith (toUpperStr line) "SUBTOPIC:" then
        { st with sub_topic := some (get_value line) }
      else if strStartsWith (toUpperStr line) "QUESTION:" then
        { st with question_text := get_value line }
      else if strStartsWith (toUpperStr line) "EXPLANATION:" then
        { st with explanation := get_value line }
      else if strStartsWith (toUpperStr line) "RATING:" then
        { st with elo_rating := (pyInt (get_value line)).getD 1200 }
      else if qt = QuestionType.multiple_choice then
        if strStartsWith line "A)" || strStartsWith line "B)" ||
            strStartsWith line "C)" || strStartsWith line "D)" then
          { st with options := st.options ++ [line] }
        else if strStartsWith (toUpperStr line) "ANSWER:" then
          { st with correct_answer := get_value line }
        else st
      else if qt = QuestionType.true_false then
        if strStartsWith (toUpperStr line) "ANSWER:" then
          { st with correct_answer := get_value line }
        else st
      else if qt = QuestionType.fill_in_the_blanks then
        if strStartsWith (toUpperStr line) "BLANKS:" then
          { st with blanks := (pySplit "," (get_value line)).map pyStrip,
                    correct_answer := get_value line }
        else st
      else if qt = QuestionType.match_the_following then
        if strStartsWith (toUpperStr line) "PAIRS:" then
          { st with match_pairs := ((pySplit "," (get_value line)).map pyStrip).foldl
                      insertPair st.match_pairs,
                    correct_answer := get_value line }
        else st
      else st) := by
  have d1 : strStartsWith (toUpperStr line) "Topic:" = false :=
    dead_pattern _ _ ⟨'o', by decide⟩
  have d2 : strStartsWith (toUpperStr line) "Sub-topic:" = false :=
    dead_pattern _ _ ⟨'u', by decide⟩
  have d3 : strStartsWith (toUpperStr line) "Question:" = false :=
    dead_pattern _ _ ⟨'u', by decide⟩
  have d4 : strStartsWith (toUpperStr line) "Explanation:" = false :=
    dead_pattern _ _ ⟨'x', by decide⟩
  have d5 : strStartsWith (toUpperStr line) "ELO Rating:" = false :=
    dead_pattern _ _ ⟨'a', by decide⟩
  have d6 : strStartsWith (toUpperStr line) "Correct Answer:" = false :=
    dead_pattern _ _ ⟨'o', by decide⟩
  have d7 : strStartsWith (toUpperStr line) "Answer:" = false :=
    dead_pattern _ _ ⟨'n', by decide⟩
  have d8 : strStartsWith (toUpperStr line) "Blanks:" = false :=
    dead_pattern _ _ ⟨'l', by decide⟩
  have d9 : strStartsWith (toUpperStr line) "Match Pairs:" = false :=
    dead_pattern _ _ ⟨'a', by decide⟩
  simp only [scanLine, d1, d2, d3, d4, d5, d6, d7, d8, d9, Bool.or_false, Bool.or_self]

lemma bool_not_false {b : Bool} (h : ¬ b = true) : b = false := by
  revert h
  cases b <;> simp

/-- A pattern check against the original (un-uppercased) line fails whenever
the uppercased line matches an incompatible pattern and the checked pattern
is unchanged by uppercasing. -/
lemma orig_startsWith_false (line pat big : String)
    (hup : strStartsWith (toUpperStr line) big = true)
    (hpat : toUpperStr pat = pat)
    (h1 : listIsPrefixOf big.data pat.data = false)
    (h2 : listIsPrefixOf pat.data big.data = false) :
    strStartsWith line pat = false := by
  by_contra hcon
  have h' : strStartsWith line pat = true := by
    revert hcon
    cases strStartsWith line pat <;> simp
  have hmap := startsWith_toUpper line pat h'
  rw [hpat] at hmap
  have hfalse := strStartsWith_excl (toUpperStr line) big pat h1 h2 hup
  rw [hmap] at hfalse
  simp at hfalse

/-- The scan updates the raw rating exactly on lines whose uppercasing
begins `RATING:`, parsing the value after the first colon and falling back
to the default 1200 when it is not a parsable integer. -/
lemma scanLine_elo (qt : QuestionType) (st : ParseFields) (line : String) :
    (scanLine qt st line).elo_rating =
      if strStartsWith (toUpperStr line) "RATING:" then (pyInt (get_value line)).getD 1200
      else st.elo_rating := by
  rw [scanLine_clean]
  by_cases hr : strStartsWith (toUpperStr line) "RATING:" = true
  · have h1 : strStartsWith (toUpperStr line) "TOPIC:" = false :=
      strStartsWith_excl _ "RATING:" "TOPIC:" (by decide) (by decide) hr
    have h2 : strStartsWith (toUpperStr line) "SUBTOPIC:" = false :=
      strStartsWith_excl _ "RATING:" "SUBTOPIC:" (by decide) (by decide) hr
    have h3 : strStartsWith (toUpperStr line) "QUESTION:" = false :=
      strStartsWith_excl _ "RATING:" "QUESTION:" (by decide) (by decide) hr
    have h4 : strStartsWith (toUpperStr line) "EXPLANATION:" = false :=
      strStartsWith_excl _ "RATING:" "EXPLANATION:" (by decide) (by decide) hr
    simp [h1, h2, h3, h4, hr]
  · have hr' : strStartsWith (toUpperStr line) "RATING:" = false := bool_not_false hr
    simp only [hr', Bool.false_eq_true, if_false]
    split_ifs <;> rfl

/-- The scan updates the sub-topic exactly on lines whose uppercasing begins
`SUBTOPIC:`, storing the value after the first colon. -/
lemma scanLine_sub (qt : QuestionType) (st : ParseFields) (line : String) :
    (scanLine qt st line).sub_topic =
      if strStartsWith (toUpperStr line) "SUBTOPIC:" then some (get_value line)
      else st.sub_topic := by
  rw [scanLine_clean]
  by_cases hs : strStartsWith (toUpperStr line) "SUBTOPIC:" = true
  · have h1 : strStartsWith (toUpperStr line) "TOPIC:" = false :=
      strStartsWith_excl _ "SUBTOPIC:" "TOPIC:" (by decide) (by decide) hs
    simp [h1, hs]
  · have hs' : strStartsWith (toUpperStr line) "SUBTOPIC:" = false := bool_not_false hs
    simp only [hs', Bool.false_eq_true, if_false]
    split_ifs <;> rfl

/-- A line whose uppercasing begins with the hyphenated spelling
`SUB-TOPIC:` falls through every branch of the scan: the hyphenated check in
the source compares a mixed-case literal against the uppercased line and is
dead, so the line is ignored entirely. -/
lemma scanLine_subhyphen_ignored (qt : QuestionType) (st : ParseFields) (line : String)
    (hup : strStartsWith (toUpperStr line) "SUB-TOPIC:" = true) :
    scanLine qt st line = st := by
  have h1 : strStartsWith (toUpperStr line) "TOPIC:" = false :=
    strStartsWith_excl _ "SUB-TOPIC:" "TOPIC:" (by decide) (by decide) hup
  have h2 : strStartsWith (toUpperStr line) "SUBTOPIC:" = false :=
    strStartsWith_excl _ "SUB-TOPIC:" "SUBTOPIC:" (by decide) (by decide) hup
  have h3 : strStartsWith (toUpperStr line) "QUESTION:" = false :=
    strStartsWith_excl _ "SUB-TOPIC:" "QUESTION:" (by decide) (by decide) hup
  have h4 : strStartsWith (toUpperStr line) "EXPLANATION:" = false :=
    strStartsWith_excl _ "SUB-TOPIC:" "EXPLANATION:" (by decide) (by decide) hup
  have h5 : strStartsWith (toUpperStr line) "RATING:" = false :=
    strStartsWith_excl _ "SUB-TOPIC:" "RATING:" (by decide) (by decide) hup
  have hA : strStartsWith line "A)" = false :=
    orig_startsWith_false line "A)" "SUB-TOPIC:" hup (by decide) (by decide) (by decide)
  have hB : strStartsWith line "B)" = false :=
    orig_startsWith_false line "B)" "SUB-TOPIC:" hup (by decide) (by decide) (by decide)
  have hC : strStartsWith line "C)" = false :=
    orig_startsWith_false line "C)" "SUB-TOPIC:" hup (by decide) (by decide) (by decide)
  have hD : strStartsWith line "D)" = false :=
    orig_startsWith_false line "D)" "SUB-TOPIC:" hup (by decide) (by decide) (by decide)
  have h6 : strStartsWith (toUpperStr line) "ANSWER:" = false :=
    strStartsWith_excl _ "SUB-TOPIC:" "ANSWER:" (by decide) (by decide) hup
  have h7 : strStartsWith (toUpperStr line) "BLANKS:" = false :=
    strStartsWith_excl _ "SUB-TOPIC:" "BLANKS:" (by decide) (by decide) hup
  have h8 : strStartsWith (toUpperStr line) "PAIRS:" = false :=
    strStartsWith_excl _ "SUB-TOPIC:" "PAIRS:" (by decide) (by decide) hup
  rw [scanLine_clean]
  simp only [h1, h2, h3, h4, h5, hA, hB, hC, hD, h6, h7, h8,
    Bool.or_self, Bool.or_false, Bool.false_eq_true, if_false]
  split_ifs <;> rfl

/-- A line whose uppercasing begins `ELO RATING:` likewise falls through
every branch of the scan: the `ELO Rating:` check is dead, so the raw rating
keeps its previous value. -/
lemma scanLine_elolabel_ignored (qt : QuestionType) (st : ParseFields) (line : String)
    (hup : strStartsWith (toUpperStr line) "ELO RATING:" = true) :
    scanLine qt st line = st := by
  have h1 : strStartsWith (toUpperStr line) "TOPIC:" = false :=
    strStartsWith_excl _ "ELO RATING:" "TOPIC:" (by decide) (by decide) hup
  have h2 : strStartsWith (toUpperStr line) "SUBTOPIC:" = false :=
    strStartsWith_excl _ "ELO RATING:" "SUBTOPIC:" (by decide) (by decide) hup
  have h3 : strStartsWith (toUpperStr line) "QUESTION:" = false :=
    strStartsWith_excl _ "ELO RATING:" "QUESTION:" (by decide) (by decide) hup
  have h4 : strStartsWith (toUpperStr line) "EXPLANATION:" = false :=
    strStartsWith_excl _ "ELO RATING:" "EXPLANATION:" (by decide) (by decide) hup
  have h5 : strStartsWith (toUpperStr line) "RATING:" = false :=
    strStartsWith_excl _ "ELO RATING:" "RATING:" (by decide) (by decide) hup
  have hA : strStartsWith line "A)" = false :=
    orig_startsWith_false line "A)" "ELO RATING:" hup (by decide) (by decide) (by decide)
  have hB : strStartsWith line "B)" = false :=
    orig_startsWith_false line "B)" "ELO RATING:" hup (by decide) (by decide) (by decide)
  have hC : strStartsWith line "C)" = false :=
    orig_startsWith_false line "C)" "ELO RATING:" hup (by decide) (by decide) (by decide)
  have hD : strStartsWith line "D)" = false :=
    orig_startsWith_false line "D)" "ELO RATING:" hup (by decide) (by decide) (by decide)
  have h6 : strStartsWith (toUpperStr line) "ANSWER:" = false :=
    strStartsWith_excl _ "ELO RATING:" "ANSWER:" (by decide) (by decide) hup
  have h7 : strStartsWith (toUpperStr line) "BLANKS:" = false :=
    strStartsWith_excl _ "ELO RATING:" "BLANKS:" (by decide) (by decide) hup
  have h8 : strStartsWith (toUpperStr line) "PAIRS:" = false :=
    strStartsWith_excl _ "ELO RATING:" "PAIRS:" (by decide) (by decide) hup
  rw [scanLine_clean]
  simp only [h1, h2, h3, h4, h5, hA, hB, hC, hD, h6, h7, h8,
    Bool.or_self, Bool.or_false, Bool.false_eq_true, if_false]
  split_ifs <;> rfl

/-- Post-scan validation characterization: a surviving block produces no
record exactly on the five rejection conditions of the source. -/
lemma parse_single_none_iff (block : String) (qt : QuestionType) (req : QuestionRequest) :
    parse_single_question block qt req = none ↔
      (scanFields block qt).question_text = "" ∨
      (scanFields block qt).correct_answer = "" ∨
      (qt = QuestionType.multiple_choice ∧ (scanFields block qt).options.length < 4) ∨
      (qt = QuestionType.fill_in_the_blanks ∧ (scanFields block qt).blanks = []) ∨
      (qt = QuestionType.match_the_following ∧ (scanFields block qt).match_pairs.length < 3) := by
  simp only [parse_single_question]
  split_ifs with h1 h2 h3 h4 h5
  · simp [h1]
  · simp [h1, h2]
  · obtain ⟨hq, hlt⟩ := h3
    subst hq
    simp [hlt]
  · obtain ⟨hq, hlt⟩ := h4
    subst hq
    simp [hlt]
  · obtain ⟨hq, hlt⟩ := h5
    subst hq
    simp [hlt]
  · simp [h1, h2, h3, h4, h5]

/-- Inversion of a successful parse: the rejection conditions all fail and
the emitted record is exactly the one the source constructs. -/
lemma parse_single_some_inv (block : String) (qt : QuestionType) (req : QuestionRequest)
    (q : QuestionDict) (h : parse_single_question block qt req = some q) :
    ¬ (scanFields block qt).question_text = "" ∧
    ¬ (scanFields block qt).correct_answer = "" ∧
    ¬ (qt = QuestionType.multiple_choice ∧ (scanFields block qt).options.length < 4) ∧
    ¬ (qt = QuestionType.fill_in_the_blanks ∧ (scanFields block qt).blanks = []) ∧
    ¬ (qt = QuestionType.match_the_following ∧ (scanFields block qt).match_pairs.length < 3) ∧
    q = { topic :=
            if (scanFields block qt).topic = "" then
              pyTitle (replaceUnderscores req.subject.value)
            else (scanFields block qt).topic,
          sub_topic :=
            if ((scanFields block qt).sub_topic = none ∨
                  (scanFields block qt).sub_topic = some "") ∧
                (req.sub_topic ≠ none ∧ req.sub_topic ≠ some "") then
              req.sub_topic
            else (scanFields block qt).sub_topic,
          question_text := (scanFields block qt).question_text,
          options :=
            if (scanFields block qt).options = [] then none
            else some (scanFields block qt).options,
          correct_answer := (scanFields block qt).correct_answer,
          explanation :=
            if (scanFields block qt).explanation = "" then none
            else some (scanFields block qt).explanation,
          blanks :=
            if (scanFields block qt).blanks = [] then none
            else some (scanFields block qt).blanks,
          match_pairs :=
            if (scanFields block qt).match_pairs = [] then none
            else some (scanFields block qt).match_pairs,
          elo_rating := max 800 (min 2400 (scanFields block qt).elo_rating),
          elo_range := (max 800 (min 2400 (scanFields block qt).elo_rating) - 200,
                        max 800 (min 2400 (scanFields block qt).elo_rating) + 200),
          state := req.state } := by
  simp only [parse_single_question] at h
  by_cases h1 : (scanFields block qt).question_text = ""
  · rw [if_pos h1] at h
    exact absurd h (by simp)
  rw [if_neg h1] at h
  by_cases h2 : (scanFields block qt).correct_answer = ""
  · rw [if_pos h2] at h
    exact absurd h (by simp)
  rw [if_neg h2] at h
  by_cases h3 : qt = QuestionType.multiple_choice ∧ (scanFields block qt).options.length < 4
  · rw [if_pos h3] at h
    exact absurd h (by simp)
  rw [if_neg h3] at h
  by_cases h4 : qt = QuestionType.fill_in_the_blanks ∧ (scanFields block qt).blanks = []
  · rw [if_pos h4] at h
    exact absurd h (by simp)
  rw [if_neg h4] at h
  by_cases h5 : qt = QuestionType.match_the_following ∧ (scanFields block qt).match_pairs.length < 3
  · rw [if_pos h5] at h
    exact absurd h (by simp)
  rw [if_neg h5] at h
  exact ⟨h1, h2, h3, h4, h5, (Option.some.inj h).symm⟩

/-- Generalized loop characterization for `_parse_ai_response`: the loop
appends exactly the records of accepted surviving blocks, so a rejected
block contributes nothing and parsing continues with the rest. -/
lemma parse_fold_aux (req : QuestionRequest) (bs : List String) (acc : List QuestionDict) :
    bs.foldl
      (fun acc rawBlock =>
        let block := pyStrip rawBlock
        if block = "" ∨ block.length < 30 then acc
        else
          match parse_single_question block req.question_type req with
          | some q => acc ++ [q]
          | none => acc)
      acc =
    acc ++ (((bs.map pyStrip).filter fun b => decide (30 ≤ b.length)).filterMap
      fun b => parse_single_question b req.question_type req) := by
  induction bs generalizing acc with
  | nil => simp
  | cons b rest ih =>
      simp only [List.foldl_cons, List.map_cons, List.filter_cons]
      by_cases hb : pyStrip b = "" ∨ (pyStrip b).length < 30
      · have hcond : decide (30 ≤ (pyStrip b).length) = false := by
          rcases hb with hb | hb
          · simp [hb]
          · simp
            omega
        rw [if_pos hb, hcond]
        simp only [Bool.false_eq_true, if_false]
        exact ih acc
      · have hcond : decide (30 ≤ (pyStrip b).length) = true := by
          push_neg at hb
          simp
          omega
        rw [if_neg hb, hcond]
        simp only [if_true]
        rw [ih]
        cases hp : parse_single_question (pyStrip b) req.question_type req with
        | some q => simp [List.filterMap_cons, hp]
        | none => simp [List.filterMap_cons, hp]

/-- `_parse_ai_response` is the filterMap of `_parse_single_question` over
the stripped `---`-blocks that survive the 30-character filter. -/
lemma parse_ai_response_eq (resp : String) (req : QuestionRequest) :
    parse_ai_response resp req =
      (((pySplit "---" resp).map pyStrip).filter fun b => decide (30 ≤ b.length)).filterMap
        (fun b => parse_single_question b req.question_type req) := by
  have h := parse_fold_aux req (pySplit "---" resp) []
  simpa [parse_ai_response] using h

/-! ## Concrete fixtures used by witnesses and counterexamples -/




/-! ## Claims -/

/-- C1: a candidate block surviving the 30-character filter parses to no
record exactly when the question text is empty, no correct answer was
captured for the declared type, a multiple_choice block collected fewer than
4 options, a fill_in_the_blanks block parsed zero blanks, or a
match_the_following block parsed fewer than 3 pairs; a rejected block is
dropped silently (the parse is the filterMap over the surviving blocks, so
rejection contributes nothing, nothing is raised, and parsing continues with
the remaining blocks). -/
theorem claim_c1_rejection (resp : String) (req : QuestionRequest) (block : String)
    (hlen : 30 ≤ block.length) :
    (parse_single_question block req.question_type req = none ↔
      (scanFields block req.question_type).question_text = "" ∨
      (scanFields block req.question_type).correct_answer = "" ∨
      (req.question_type = QuestionType.multiple_choice ∧
        (scanFields block req.question_type).options.length < 4) ∨
      (req.question_type = QuestionType.fill_in_the_blanks ∧
        (scanFields block req.question_type).blanks = []) ∨
      (req.question_type = QuestionType.match_the_following ∧
        (scanFields block req.question_type).match_pairs.length < 3)) ∧
    parse_ai_response resp req =
      (((pySplit "---" resp).map pyStrip).filter fun b => decide (30 ≤ b.length)).filterMap
        (fun b => parse_single_question b req.question_type req) :=
  ⟨parse_single_none_iff block req.question_type req, parse_ai_response_eq resp req⟩

/-- C1 witness: a match block with only 2 pairs (42 characters after
stripping) is rejected; the same block with a third pair is accepted. -/
theorem claim_c1_rejection_witness :
    parse_single_question
      "QUESTION: Match the following elements fast\nPAIRS: Hydrogen=H, Oxygen=O"
      QuestionType.match_the_following reqMatch = none ∧
    parse_single_question
      "QUESTION: Match the following elements fast\nPAIRS: Hydrogen=H, Oxygen=O, Carbon=C"
      QuestionType.match_the_following reqMatch ≠ none :=
  ⟨(claim_c1_rejection "" reqMatch
      "QUESTION: Match the following elements fast\nPAIRS: Hydrogen=H, Oxygen=O"
      (by decide)).1.mpr (by decide),
   fun hnone =>
    absurd ((claim_c1_rejection "" reqMatch
      "QUESTION: Match the following elements fast\nPAIRS: Hydrogen=H, Oxygen=O, Carbon=C"
      (by decide)).1.mp hnone) (by decide)⟩

/-- C2: an emitted record's rating is the scanned raw rating (taken from a
`RATING:` line, parsed after the first colon with fallback 1200, and left at
the initial 1200 by every non-`RATING:` line) clamped to [800, 2400], and
its rating range is (rating − 200, rating + 200) with no clamping of the
bounds; the computation is total. -/
theorem claim_c2_rating (block : String) (req : QuestionRequest) (q : QuestionDict)
    (st : ParseFields) (l1 l2 : String)
    (h : parse_single_question block req.question_type req = some q)
    (h1 : strStartsWith (toUpperStr l1) "RATING:" = true)
    (h2 : strStartsWith (toUpperStr l2) "RATING:" = false) :
    q.elo_rating = max 800 (min 2400 (scanFields block req.question_type).elo_rating) ∧
    q.elo_range = (q.elo_rating - 200, q.elo_rating + 200) ∧
    800 ≤ q.elo_rating ∧ q.elo_rating ≤ 2400 ∧
    initFields.elo_rating = 1200 ∧
    (scanLine req.question_type st l1).elo_rating = (pyInt (get_value l1)).getD 1200 ∧
    (scanLine req.question_type st l2).elo_rating = st.elo_rating := by
  obtain ⟨-, -, -, -, -, hq⟩ :=
    parse_single_some_inv block req.question_type req q h
  subst hq
  refine ⟨rfl, rfl, le_max_left _ _, ?_, rfl, ?_, ?_⟩
  · exact max_le (by norm_num) (min_le_left _ _)
  · rw [scanLine_elo, if_pos h1]
  · rw [scanLine_elo, if_neg (by simp [h2])]


/-- C2 witness: a block rated 9999 clamps to 2400 with range (2200, 2600);
a `Rating: abc` line stores the fallback 1200; a `TOPIC:` line leaves the
rating untouched. -/
theorem claim_c2_rating_witness :
    qWitC2.elo_rating =
      max 800 (min 2400
        (scanFields "QUESTION: Is gravity attractive at all?\nANSWER: True\nRATING: 9999"
          QuestionType.true_false).elo_rating) ∧
    qWitC2.elo_range = (qWitC2.elo_rating - 200, qWitC2.elo_rating + 200) ∧
    800 ≤ qWitC2.elo_rating ∧ qWitC2.elo_rating ≤ 2400 ∧
    initFields.elo_rating = 1200 ∧
    (scanLine QuestionType.true_false initFields "Rating: abc").elo_rating =
      (pyInt (get_value "Rating: abc")).getD 1200 ∧
    (scanLine QuestionType.true_false initFields "TOPIC: Light").elo_rating =
      initFields.elo_rating :=
  claim_c2_rating
    "QUESTION: Is gravity attractive at all?\nANSWER: True\nRATING: 9999"
    reqTF qWitC2 initFields "Rating: abc" "TOPIC: Light"
    (by decide) (by decide) (by decide)

/-- C3: every parser-emitted record, pushed through
`create_question_response_from_dict`, yields a response in which the payload
variant matching the request's declared question type is populated and the
other three are `none` — never zero variants, never more than one. -/
theorem claim_c3_payload (block : String) (req : QuestionRequest) (q : QuestionDict)
    (i : Nat) (h : parse_single_question block req.question_type req = some q) :
    (create_question_response_from_dict q req i).map
        (fun r => (r.multiple_choice_data.isSome, r.true_false_data.isSome,
                   r.fill_in_blanks_data.isSome, r.match_following_data.isSome)) =
      some (decide (req.question_type = QuestionType.multiple_choice),
            decide (req.question_type = QuestionType.true_false),
            decide (req.question_type = QuestionType.fill_in_the_blanks),
            decide (req.question_type = QuestionType.match_the_following)) := by
  obtain ⟨-, -, h3, h4, h5, hq⟩ :=
    parse_single_some_inv block req.question_type req q h
  subst hq
  cases hqt : req.question_type with
  | multiple_choice =>
      rw [hqt] at h3
      have hlen : ¬ (scanFields block QuestionType.multiple_choice).options.length < 4 := by
        intro hc
        exact h3 ⟨rfl, hc⟩
      have hne : ¬ (scanFields block QuestionType.multiple_choice).options = [] := by
        intro hc
        rw [hc] at hlen
        simp at hlen
      simp [create_question_response_from_dict, hqt, optListTruthy, hne, hlen]
  | true_false =>
      simp [create_question_response_from_dict, hqt]
  | fill_in_the_blanks =>
      rw [hqt] at h4
      have hne : ¬ (scanFields block QuestionType.fill_in_the_blanks).blanks = [] := by
        intro hc
        exact h4 ⟨rfl, hc⟩
      simp [create_question_response_from_dict, hqt, optListTruthy, hne]
  | match_the_following =>
      rw [hqt] at h5
      have hne : ¬ (scanFields block QuestionType.match_the_following).match_pairs = [] := by
        intro hc
        rw [hc] at h5
        simp at h5
      simp [create_question_response_from_dict, hqt, optListTruthy, hne]



set_option maxRecDepth 4000 in
/-- C3 witness: the worked multiple-choice example block converts to a
response with only the multiple-choice payload populated. -/
theorem claim_c3_payload_witness :
    (create_question_response_from_dict qWitC3 reqMC 1).map
        (fun r => (r.multiple_choice_data.isSome, r.true_false_data.isSome,
                   r.fill_in_blanks_data.isSome, r.match_following_data.isSome)) =
      some (true, false, false, false) :=
  claim_c3_payload
    "TOPIC: Electric Current\nSUBTOPIC: SI Units\nQUESTION: What is the fundamental unit of electric current?\nA) Volt\nB) Watt\nC) Ampere\nD) Ohm\nANSWER: C\nEXPLANATION: The ampere is the SI base unit for electric current.\nRATING: 1100"
    reqMC qWitC3 1 (by decide)

/-- C4 counterexample: in a true/false block, the line `Sub-topic: Liquids`
does not set the sub-topic and the line `ELO Rating: 1300` does not set the
rating — the emitted record keeps sub-topic `none` and the default rating
1200, while the `SUBTOPIC:` and `RATING:` spellings of the same values are
recognized. -/
theorem claim_c4_counterexample :
    (parse_single_question
        "QUESTION: Is water wet in normal conditions?\nANSWER: True\nSub-topic: Liquids\nELO Rating: 1300"
        QuestionType.true_false reqTF).map (fun q => (q.sub_topic, q.elo_rating)) =
      some (none, 1200) ∧
    (parse_single_question
        "QUESTION: Is water wet in normal conditions?\nANSWER: True\nSUBTOPIC: Liquids\nRATING: 1300"
        QuestionType.true_false reqTF).map (fun q => (q.sub_topic, q.elo_rating)) =
      some (some "Liquids", 1300) := by
  exact ⟨by decide, by decide⟩

/-- C4 amended: recognition of the primary field labels is case-insensitive
(it tests the uppercased line) with the value taken after the first colon —
`SUBTOPIC:` in any casing sets the sub-topic and `RATING:` in any casing
sets the raw rating — but the alternate spellings are dead: a line whose
uppercasing begins `SUB-TOPIC:` or `ELO RATING:` falls through the entire
scan and changes nothing. -/
theorem claim_c4_amended (qt : QuestionType) (st : ParseFields) (l1 l2 l3 : String)
    (h1 : strStartsWith (toUpperStr l1) "SUB-TOPIC:" = true)
    (h2 : strStartsWith (toUpperStr l2) "ELO RATING:" = true) :
    ((scanLine qt st l3).sub_topic =
      if strStartsWith (toUpperStr l3) "SUBTOPIC:" then some (get_value l3)
      else st.sub_topic) ∧
    ((scanLine qt st l3).elo_rating =
      if strStartsWith (toUpperStr l3) "RATING:" then (pyInt (get_value l3)).getD 1200
      else st.elo_rating) ∧
    scanLine qt st l1 = st ∧
    scanLine qt st l2 = st :=
  ⟨scanLine_sub qt st l3, scanLine_elo qt st l3,
   scanLine_subhyphen_ignored qt st l1 h1,
   scanLine_elolabel_ignored qt st l2 h2⟩

/-- C4 witness: `Sub-topic: Liquids` and `ELO Rating: 1300` are ignored,
while the mixed-case `SubTopic: Geometry` line is recognized
case-insensitively and stores the value after the colon. -/
theorem claim_c4_amended_witness :
    ((scanLine QuestionType.true_false initFields "SubTopic: Geometry").sub_topic =
      if strStartsWith (toUpperStr "SubTopic: Geometry") "SUBTOPIC:" then
        some (get_value "SubTopic: Geometry")
      else initFields.sub_topic) ∧
    ((scanLine QuestionType.true_false initFields "SubTopic: Geometry").elo_rating =
      if strStartsWith (toUpperStr "SubTopic: Geometry") "RATING:" then
        (pyInt (get_value "SubTopic: Geometry")).getD 1200
      else initFields.elo_rating) ∧
    scanLine QuestionType.true_false initFields "Sub-topic: Liquids" = initFields ∧
    scanLine QuestionType.true_false initFields "ELO Rating: 1300" = initFields :=
  claim_c4_amended QuestionType.true_false initFields
    "Sub-topic: Liquids" "ELO Rating: 1300" "SubTopic: Geometry"
    (by decide) (by decide)

/-- C5 counterexample: a stored row whose text carries a leading space
matches the candidate under case-insensitive comparison after trimming both
sides — the claim's reading — yet the predicate returns false, because the
source trims only the candidate. -/
theorem claim_c5_counterexample :
    pyStrip (toLowerStr " What is gravity?") = pyStrip (toLowerStr "What is gravity?") ∧
    check_duplicate_question
      [{ id := 1, question_text := " What is gravity?", subject := "physics",
         question_type := "true_false" }]
      "What is gravity?" "physics" "true_false" = false := by
  exact ⟨by decide, by decide⟩

/-- C5 amended: the duplicate predicate returns true exactly when some
stored row has lowercased question text equal to the candidate's lowercased
and trimmed text — the stored side is lowercased but not trimmed — together
with the same subject and the same question type. -/
theorem claim_c5_amended (db : List StoredQuestion) (text subject question_type : String) :
    check_duplicate_question db text subject question_type = true ↔
      ∃ row ∈ db, toLowerStr row.question_text = pyStrip (toLowerStr text) ∧
        row.subject = subject ∧ row.question_type = question_type := by
  simp only [check_duplicate_question, List.any_eq_true, Bool.and_eq_true, beq_iff_eq]
  constructor
  · rintro ⟨row, hmem, ⟨ht, hs⟩, hq⟩
    exact ⟨row, hmem, ht, hs, hq⟩
  · rintro ⟨row, hmem, ht, hs, hq⟩
    exact ⟨row, hmem, ⟨ht, hs⟩, hq⟩

/-! ## Orchestrator loop invariants -/



lemma processRecord_dups_saved (req : QuestionRequest) (st : GenState) (iq : Nat × QuestionDict) :
    (processRecord req st iq).dups + (processRecord req st iq).saved_count =
      st.dups + st.saved_count + 1 := by
  simp only [processRecord]
  split_ifs with hd <;>
    cases hc : create_question_response_from_dict iq.2 req (iq.1 + 1) <;> simp <;> omega

lemma processRecord_db_saved (req : QuestionRequest) (st : GenState) (iq : Nat × QuestionDict) :
    (processRecord req st iq).db.length + st.saved_count =
      st.db.length + (processRecord req st iq).saved_count := by
  simp only [processRecord]
  split_ifs with hd <;>
    cases hc : create_question_response_from_dict iq.2 req (iq.1 + 1) <;> simp <;> omega

lemma processRecord_dup_true (req : QuestionRequest) (st : GenState) (iq : Nat × QuestionDict)
    (hd : check_duplicate_question st.db iq.2.question_text
            req.subject.value req.question_type.value = true) :
    (processRecord req st iq).dups = st.dups + 1 ∧
    (processRecord req st iq).saved_count = st.saved_count ∧
    (processRecord req st iq).db = st.db := by
  simp only [processRecord, hd, if_true]
  cases hc : create_question_response_from_dict iq.2 req (iq.1 + 1) <;> simp

lemma processRecord_dup_false (req : QuestionRequest) (st : GenState) (iq : Nat × QuestionDict)
    (hd : check_duplicate_question st.db iq.2.question_text
            req.subject.value req.question_type.value = false) :
    (processRecord req st iq).dups = st.dups ∧
    (processRecord req st iq).saved_count = st.saved_count + 1 ∧
    (processRecord req st iq).db = st.db ++ [storedOf iq.2 req (st.db.length + 1)] := by
  simp only [processRecord, hd, Bool.false_eq_true, if_false]
  cases hc : create_question_response_from_dict iq.2 req (iq.1 + 1) <;> simp

lemma processRecord_frontend_some (req : QuestionRequest) (st : GenState)
    (iq : Nat × QuestionDict)
    (hok : (create_question_response_from_dict iq.2 req (iq.1 + 1)).isSome = true) :
    ∃ r, create_question_response_from_dict iq.2 req (iq.1 + 1) = some r ∧
      (processRecord req st iq).frontend = st.frontend ++ [convert_to_frontend_format r] := by
  cases hc : create_question_response_from_dict iq.2 req (iq.1 + 1) with
  | none => rw [hc] at hok; simp at hok
  | some r =>
      refine ⟨r, rfl, ?_⟩
      simp only [processRecord, hc]
      split_ifs with hd <;> simp

lemma processRecord_frontend_append (req : QuestionRequest) (st : GenState)
    (iq : Nat × QuestionDict) :
    ∃ e, (processRecord req st iq).frontend = st.frontend ++ e := by
  simp only [processRecord]
  split_ifs with hd
  · cases hc : create_question_response_from_dict iq.2 req (iq.1 + 1) with
    | none => exact ⟨[], by simp⟩
    | some r => exact ⟨[convert_to_frontend_format r], by simp⟩
  · cases hc : create_question_response_from_dict iq.2 req (iq.1 + 1) with
    | none => exact ⟨[], by simp⟩
    | some r => exact ⟨[convert_to_frontend_format r], by simp⟩

lemma processList_dups_saved (req : QuestionRequest) (qs : List QuestionDict) :
    ∀ (st : GenState) (i : Nat),
      (processList req st i qs).dups + (processList req st i qs).saved_count =
        st.dups + st.saved_count + qs.length := by
  induction qs with
  | nil => intro st i; simp [processList]
  | cons q rest ih =>
      intro st i
      simp only [processList, List.length_cons]
      have hstep := processRecord_dups_saved req st (i, q)
      have := ih (processRecord req st (i, q)) (i + 1)
      omega

lemma processList_db_saved (req : QuestionRequest) (qs : List QuestionDict) :
    ∀ (st : GenState) (i : Nat),
      (processList req st i qs).db.length + st.saved_count =
        st.db.length + (processList req st i qs).saved_count := by
  induction qs with
  | nil => intro st i; simp [processList]
  | cons q rest ih =>
      intro st i
      simp only [processList]
      have hstep := processRecord_db_saved req st (i, q)
      have := ih (processRecord req st (i, q)) (i + 1)
      omega

lemma processList_frontend_len (req : QuestionRequest) (qs : List QuestionDict)
    (hok : ∀ q ∈ qs, ∀ j, (create_question_response_from_dict q req j).isSome = true) :
    ∀ (st : GenState) (i : Nat),
      (processList req st i qs).frontend.length = st.frontend.length + qs.length := by
  induction qs with
  | nil => intro st i; simp [processList]
  | cons q rest ih =>
      intro st i
      simp only [processList, List.length_cons]
      obtain ⟨r, -, hfr⟩ :=
        processRecord_frontend_some req st (i, q) (hok q (List.mem_cons_self q rest) (i + 1))
      have hlen : (processRecord req st (i, q)).frontend.length = st.frontend.length + 1 := by
        rw [hfr]; simp
      have := ih (fun q hq j => hok q (List.mem_cons_of_mem _ hq) j)
        (processRecord req st (i, q)) (i + 1)
      omega

lemma processList_frontend_prefix (req : QuestionRequest) (qs : List QuestionDict) :
    ∀ (st : GenState) (i : Nat),
      ∃ ext, (processList req st i qs).frontend = st.frontend ++ ext := by
  induction qs with
  | nil => intro st i; exact ⟨[], by simp [processList]⟩
  | cons q rest ih =>
      intro st i
      simp only [processList]
      obtain ⟨e, he⟩ := processRecord_frontend_append req st (i, q)
      obtain ⟨ext, hext⟩ := ih (processRecord req st (i, q)) (i + 1)
      exact ⟨e ++ ext, by rw [hext, he, List.append_assoc]⟩

lemma getD_middle {α : Type} (l : List α) (a : α) (t : List α) (d : α) :
    (l ++ a :: t).getD l.length d = a := by
  induction l with
  | nil => rfl
  | cons x xs ih => simpa using ih

lemma create_id (q : QuestionDict) (req : QuestionRequest) (j : Nat) (r : QuestionResponse)
    (h : create_question_response_from_dict q req j = some r) : r.id = j := by
  simp only [create_question_response_from_dict] at h
  split_ifs at h
  · split at h
    · split_ifs at h
      cases Option.some.inj h
      rfl
    · exact absurd h (by simp)
  all_goals
    cases Option.some.inj h
    rfl

lemma convert_id (r : QuestionResponse) : (convert_to_frontend_format r).id = r.id := by
  simp only [convert_to_frontend_format]
  cases r.multiple_choice_data <;>
    cases r.true_false_data <;>
      cases r.fill_in_blanks_data <;>
        cases r.match_following_data <;> rfl

lemma processList_frontend_getD_id (req : QuestionRequest) (qs : List QuestionDict)
    (hok : ∀ q ∈ qs, ∀ j, (create_question_response_from_dict q req j).isSome = true) :
    ∀ (st : GenState) (i k : Nat), k < qs.length →
      (((processList req st i qs).frontend).getD (st.frontend.length + k) dummyFrontend).id =
        i + k + 1 := by
  induction qs with
  | nil => intro st i k hk; simp at hk
  | cons q rest ih =>
      intro st i k hk
      simp only [processList]
      obtain ⟨r, hcr, hfr⟩ :=
        processRecord_frontend_some req st (i, q) (hok q (List.mem_cons_self q rest) (i + 1))
      cases k with
      | zero =>
          obtain ⟨ext, hext⟩ := processList_frontend_prefix req rest
            (processRecord req st (i, q)) (i + 1)
          rw [hext, hfr, List.append_assoc, Nat.add_zero]
          simp only [List.singleton_append]
          rw [getD_middle]
          have hid : r.id = i + 1 := create_id q req (i + 1) r hcr
          rw [convert_id, hid]
      | succ k =>
          have hlen : (processRecord req st (i, q)).frontend.length =
              st.frontend.length + 1 := by
            rw [hfr]; simp
          have := ih (fun q hq j => hok q (List.mem_cons_of_mem _ hq) j)
            (processRecord req st (i, q)) (i + 1) k (by simpa using hk)
          rw [hlen] at this
          have harr : st.frontend.length + (k + 1) = st.frontend.length + 1 + k := by omega
          rw [harr]
          rw [this]
          omega

/-- The number of duplicates counted by the loop equals the number of
positions whose record is flagged by the duplicate predicate against the
store as it stands when that record is processed (i.e. after the records
before it have been handled, including their committed saves). -/
lemma processList_dups_count (req : QuestionRequest) (qs : List QuestionDict) :
    ∀ (st : GenState) (i : Nat),
      (processList req st i qs).dups = st.dups +
        (List.range qs.length).countP (fun k =>
          check_duplicate_question (processList req st i (qs.take k)).db
            (qs.getD k dummyQuestionDict).question_text
            req.subject.value req.question_type.value) := by
  induction qs with
  | nil => intro st i; simp [processList]
  | cons q rest ih =>
      intro st i
      rw [List.length_cons, List.range_succ_eq_map, List.countP_cons, List.countP_map]
      have hcomp :
          ((fun k =>
            check_duplicate_question (processList req st i ((q :: rest).take k)).db
              ((q :: rest).getD k dummyQuestionDict).question_text
              req.subject.value req.question_type.value) ∘ Nat.succ) =
          (fun k =>
            check_duplicate_question
              (processList req (processRecord req st (i, q)) (i + 1) (rest.take k)).db
              (rest.getD k dummyQuestionDict).question_text
              req.subject.value req.question_type.value) := rfl
      rw [hcomp]
      simp only [List.take_zero, List.getD_cons_zero]
      have hempty : processList req st i ([] : List QuestionDict) = st := rfl
      simp only [hempty]
      have hIH := ih (processRecord req st (i, q)) (i + 1)
      have hLHS : processList req st i (q :: rest) =
          processList req (processRecord req st (i, q)) (i + 1) rest := rfl
      rw [hLHS, hIH]
      cases hd : check_duplicate_question st.db q.question_text
          req.subject.value req.question_type.value with
      | true =>
          obtain ⟨h1, -, -⟩ := processRecord_dup_true req st (i, q) hd
          rw [h1]
          simp
          omega
      | false =>
          obtain ⟨h1, -, -⟩ := processRecord_dup_false req st (i, q) hd
          rw [h1]
          simp

/-- For a true/false request the response construction never fails, whatever
the record contents (used to discharge the per-record success hypothesis on
concrete runs). -/
lemma create_tf_isSome (q : QuestionDict) (req : QuestionRequest) (j : Nat)
    (h : req.question_type = QuestionType.true_false) :
    (create_question_response_from_dict q req j).isSome = true := by
  simp [create_question_response_from_dict, h]

/-- C6: every record flagged by the duplicate predicate (checked against the
store as of its processing step) is counted in `duplicates_skipped` and not
persisted, yet still contributes its entry to the per-record output;
`duplicates_skipped` is the number of flagged records, `newly_generated` the
number of records actually persisted, and together they partition the batch. -/
theorem claim_c6_dedup (db : List StoredQuestion) (req : QuestionRequest)
    (qs : List QuestionDict)
    (hok : ∀ q ∈ qs, ∀ j, (create_question_response_from_dict q req j).isSome = true)
    (hne : qs ≠ []) (hnum : 0 < req.num_questions) :
    (processAll req db qs).dups + (processAll req db qs).saved_count = qs.length ∧
    (processAll req db qs).db.length = db.length + (processAll req db qs).saved_count ∧
    (processAll req db qs).frontend.length = qs.length ∧
    (processAll req db qs).dups =
      (List.range qs.length).countP (fun k =>
        check_duplicate_question (processAll req db (qs.take k)).db
          (qs.getD k dummyQuestionDict).question_text
          req.subject.value req.question_type.value) ∧
    (generate_core db req qs).2 = (processAll req db qs).db ∧
    (generate_core db req qs).1.map
        (fun resp => (resp.stats.duplicates_skipped, resp.stats.newly_generated)) =
      Except.ok ((processAll req db qs).dups, (processAll req db qs).saved_count) := by
  have hds := processList_dups_saved req qs { db := db, saved_count := 0, frontend := [], dups := 0 } 0
  have hdb := processList_db_saved req qs { db := db, saved_count := 0, frontend := [], dups := 0 } 0
  have hfl := processList_frontend_len req qs hok { db := db, saved_count := 0, frontend := [], dups := 0 } 0
  have hdc := processList_dups_count req qs { db := db, saved_count := 0, frontend := [], dups := 0 } 0
  simp only [processAll] at *
  have hfl2 : (processAll req db qs).frontend.length = qs.length := by
    simpa [processAll] using hfl
  have hnemp : List.take req.num_questions (processAll req db qs).frontend ≠ [] := by
    intro hc
    have hlc := congrArg List.length hc
    rw [List.length_take] at hlc
    simp only [List.length_nil] at hlc
    have hql : qs.length ≠ 0 := fun h0 => hne (List.length_eq_zero.mp h0)
    rw [hfl2] at hlc
    omega
  refine ⟨by omega, by simpa using hdb, by simpa using hfl, by simpa using hdc, ?_, ?_⟩
  · simp only [generate_core, if_neg hne]
    rw [if_neg hnemp]
    rfl
  · simp only [generate_core, if_neg hne]
    rw [if_neg hnemp]
    rfl




/-- C6 witness: with one matching row already stored, a batch of two
records (one duplicate, one new) counts one skip and one save, persists only
the new record, and still outputs both. -/
theorem claim_c6_dedup_witness :
    (processAll reqTF dbWit [qd1, qd2]).dups +
        (processAll reqTF dbWit [qd1, qd2]).saved_count = [qd1, qd2].length ∧
    (processAll reqTF dbWit [qd1, qd2]).db.length =
      dbWit.length + (processAll reqTF dbWit [qd1, qd2]).saved_count ∧
    (processAll reqTF dbWit [qd1, qd2]).frontend.length = [qd1, qd2].length ∧
    (processAll reqTF dbWit [qd1, qd2]).dups =
      (List.range [qd1, qd2].length).countP (fun k =>
        check_duplicate_question (processAll reqTF dbWit ([qd1, qd2].take k)).db
          ([qd1, qd2].getD k dummyQuestionDict).question_text
          reqTF.subject.value reqTF.question_type.value) ∧
    (generate_core dbWit reqTF [qd1, qd2]).2 = (processAll reqTF dbWit [qd1, qd2]).db ∧
    (generate_core dbWit reqTF [qd1, qd2]).1.map
        (fun resp => (resp.stats.duplicates_skipped, resp.stats.newly_generated)) =
      Except.ok ((processAll reqTF dbWit [qd1, qd2]).dups,
                 (processAll reqTF dbWit [qd1, qd2]).saved_count) :=
  claim_c6_dedup dbWit reqTF [qd1, qd2]
    (fun q _ j => create_tf_isSome q reqTF j rfl) (by decide) (by decide)

/-- C7: on a non-empty batch the route succeeds, its `questions` array is
exactly the first `num_questions` entries of the per-record output (surplus
dropped, shortfall tolerated), and `stats.total_returned` is the length of
that truncated list, which is `min num_questions (number of records)`. -/
theorem claim_c7_truncation (db : List StoredQuestion) (req : QuestionRequest)
    (qs : List QuestionDict)
    (hok : ∀ q ∈ qs, ∀ j, (create_question_response_from_dict q req j).isSome = true)
    (hne : qs ≠ []) (hnum : 0 < req.num_questions) :
    (generate_core db req qs).1.map
        (fun resp => (resp.questions, resp.stats.total_returned)) =
      Except.ok ((processAll req db qs).frontend.take req.num_questions,
        ((processAll req db qs).frontend.take req.num_questions).length) ∧
    ((processAll req db qs).frontend.take req.num_questions).length =
      min req.num_questions qs.length := by
  have hfl := processList_frontend_len req qs hok
    { db := db, saved_count := 0, frontend := [], dups := 0 } 0
  have hfl2 : (processAll req db qs).frontend.length = qs.length := by
    simpa [processAll] using hfl
  have hnemp : List.take req.num_questions (processAll req db qs).frontend ≠ [] := by
    intro hc
    have hlc := congrArg List.length hc
    rw [List.length_take] at hlc
    simp only [List.length_nil] at hlc
    have hql : qs.length ≠ 0 := fun h0 => hne (List.length_eq_zero.mp h0)
    rw [hfl2] at hlc
    omega
  constructor
  · simp only [generate_core, if_neg hne]
    rw [if_neg hnemp]
    rfl
  · rw [List.length_take, hfl2]




/-- C7 witness: seven parsed records with `num_questions = 5` return exactly
the first five entries and `total_returned = 5`. -/
theorem claim_c7_truncation_witness :
    (generate_core [] req7 qs7).1.map
        (fun resp => (resp.questions, resp.stats.total_returned)) =
      Except.ok ((processAll req7 [] qs7).frontend.take req7.num_questions,
        ((processAll req7 [] qs7).frontend.take req7.num_questions).length) ∧
    ((processAll req7 [] qs7).frontend.take req7.num_questions).length =
      min req7.num_questions qs7.length :=
  claim_c7_truncation [] req7 qs7
    (fun q _ j => create_tf_isSome q req7 j rfl) (by decide) (by decide)

/-- C8: the generation operation fails with `GenerationUnavailable` when the
client is unconfigured or the LLM call produced no text (`none` or the empty
string), and with `NoParsableQuestions` when text was received but parsing
yields zero records; in every such case the single error is raised before
any per-record processing, leaving the store untouched. -/
theorem claim_c8_errors (db : List StoredQuestion) (req : QuestionRequest) (t : String)
    (h1 : t ≠ "") (h2 : parse_ai_response t req = []) :
    generate_questions_route db req false (some t) =
      (Except.error GenError.generationUnavailable, db) ∧
    generate_questions_route db req false none =
      (Except.error GenError.generationUnavailable, db) ∧
    generate_questions_route db req true none =
      (Except.error GenError.generationUnavailable, db) ∧
    generate_questions_route db req true (some "") =
      (Except.error GenError.generationUnavailable, db) ∧
    generate_questions_route db req true (some t) =
      (Except.error GenError.noParsableQuestions, db) := by
  refine ⟨?_, rfl, rfl, rfl, ?_⟩
  · simp [generate_questions_route, generate_questions_with_ai]
  · simp [generate_questions_route, generate_questions_with_ai, h1, h2]

/-- C8 witness: a completion of "hi" (no surviving block) yields
`NoParsableQuestions`; the unconfigured and empty-completion cases yield
`GenerationUnavailable`; the store is returned unchanged. -/
theorem claim_c8_errors_witness :
    generate_questions_route dbWit reqTF false (some "hi") =
      (Except.error GenError.generationUnavailable, dbWit) ∧
    generate_questions_route dbWit reqTF false none =
      (Except.error GenError.generationUnavailable, dbWit) ∧
    generate_questions_route dbWit reqTF true none =
      (Except.error GenError.generationUnavailable, dbWit) ∧
    generate_questions_route dbWit reqTF true (some "") =
      (Except.error GenError.generationUnavailable, dbWit) ∧
    generate_questions_route dbWit reqTF true (some "hi") =
      (Except.error GenError.noParsableQuestions, dbWit) :=
  claim_c8_errors dbWit reqTF "hi" (by decide) (by decide)

/-- C9: when a validated block's topic is empty, the emitted record's topic
is the request subject's name with underscores replaced by spaces and
title-cased (`computer_science`gives "Computer Science"); when its
sub-topic is empty and the request specified one, the record's sub-topic is
the request's. -/
theorem claim_c9_defaults (block : String) (req : QuestionRequest) (q : QuestionDict)
    (h : parse_single_question block req.question_type req = some q)
    (ht : (scanFields block req.question_type).topic = "")
    (hs : (scanFields block req.question_type).sub_topic = none ∨
          (scanFields block req.question_type).sub_topic = some "")
    (hr1 : req.sub_topic ≠ none) (hr2 : req.sub_topic ≠ some "") :
    q.topic = pyTitle (replaceUnderscores req.subject.value) ∧
    q.sub_topic = req.sub_topic ∧
    pyTitle (replaceUnderscores Subject.computer_science.value) = "Computer Science" := by
  obtain ⟨-, -, -, -, -, hq⟩ := parse_single_some_inv block req.question_type req q h
  subst hq
  refine ⟨?_, ?_, by decide⟩
  · show (if (scanFields block req.question_type).topic = "" then
        pyTitle (replaceUnderscores req.subject.value)
      else (scanFields block req.question_type).topic) =
      pyTitle (replaceUnderscores req.subject.value)
    rw [if_pos ht]
  · show (if ((scanFields block req.question_type).sub_topic = none ∨
          (scanFields block req.question_type).sub_topic = some "") ∧
          (req.sub_topic ≠ none ∧ req.sub_topic ≠ some "") then req.sub_topic
      else (scanFields block req.question_type).sub_topic) = req.sub_topic
    rw [if_pos ⟨hs, hr1, hr2⟩]


/-- C9 witness: a block with no `TOPIC:` or `SUBTOPIC:` line for a
`computer_science` request with sub-topic "Algorithms" defaults to topic
"Computer Science" and the request's sub-topic. -/
theorem claim_c9_defaults_witness :
    qWitC9.topic = pyTitle (replaceUnderscores reqCS.subject.value) ∧
    qWitC9.sub_topic = reqCS.sub_topic ∧
    pyTitle (replaceUnderscores Subject.computer_science.value) = "Computer Science" :=
  claim_c9_defaults "QUESTION: Does quicksort run fast on average?\nANSWER: True"
    reqCS qWitC9 (by decide) (by decide) (by decide) (by decide) (by decide)

lemma getD_take {α : Type} (l : List α) (n k : Nat) (d : α) (hk : k < n) :
    (l.take n).getD k d = l.getD k d := by
  simp only [List.getD]
  rw [List.get?_take hk]

/-- C10: the `id` of the k-th entry of the caller-facing questions array is
its 1-based position in the parsed-record list — for persisted and duplicate
records alike — independent of any storage-assigned row identifier. -/
theorem claim_c10_positional_ids (db : List StoredQuestion) (req : QuestionRequest)
    (qs : List QuestionDict)
    (hok : ∀ q ∈ qs, ∀ j, (create_question_response_from_dict q req j).isSome = true)
    (hne : qs ≠ []) (k : Nat)
    (hk : k < min req.num_questions qs.length) :
    (generate_core db req qs).1.map
        (fun resp => (resp.questions.getD k dummyFrontend).id) = Except.ok (k + 1) := by
  have hfl := processList_frontend_len req qs hok
    { db := db, saved_count := 0, frontend := [], dups := 0 } 0
  have hfl2 : (processAll req db qs).frontend.length = qs.length := by
    simpa [processAll] using hfl
  have hnemp : List.take req.num_questions (processAll req db qs).frontend ≠ [] := by
    intro hc
    have hlc := congrArg List.length hc
    rw [List.length_take] at hlc
    simp only [List.length_nil] at hlc
    have hql : qs.length ≠ 0 := fun h0 => hne (List.length_eq_zero.mp h0)
    rw [hfl2] at hlc
    omega
  simp only [generate_core, if_neg hne]
  rw [if_neg hnemp]
  simp only [Except.map]
  rw [getD_take _ _ _ _ (lt_of_lt_of_le hk (min_le_left _ _))]
  have hid := processList_frontend_getD_id req qs hok
    { db := db, saved_count := 0, frontend := [], dups := 0 } 0 k
    (lt_of_lt_of_le hk (min_le_right _ _))
  simp only [List.length_nil, Nat.zero_add] at hid
  simp only [processAll]
  rw [hid]

/-- C10 witness: in a two-record batch whose first record is a duplicate of
a stored row (whose storage id is 1), the first output question carries id 1
because it is first in the parsed-record list, and the second carries id 2. -/
theorem claim_c10_positional_ids_witness :
    (generate_core dbWit reqTF [qd1, qd2]).1.map
        (fun resp => (resp.questions.getD 0 dummyFrontend).id) = Except.ok (0 + 1) :=
  claim_c10_positional_ids dbWit reqTF [qd1, qd2]
    (fun q _ j => create_tf_isSome q reqTF j rfl) (by decide) 0 (by decide)
